import Mathlib

/-!
Shallow embedding of the Flask budget-tracking application (src/app.py).

Conventions of the embedding:
* Python floats (transaction amounts) are modelled as rationals; every
  arithmetic operation the claims exercise (sum, negation, absolute value,
  rounding to two decimals) is exact on the values involved.
* The SQLite-backed tables are modelled as lists inside a `DB` record;
  autoincrement primary keys are modelled with explicit counters.
* Each Flask route handler is modelled as a pure function from the database
  state (plus the request data) to its response value and the new state.
* Time (datetime.utcnow) and the hash salt are passed in explicitly.
-/

namespace BudgetApp

/-- Python abs on a rational, mirroring the builtin used at lines 142, 171
and 182 of app.py. -/
def pyabs (x : Rat) : Rat := if x < 0 then -x else x

/-- Python round(v, 2) on a rational, mirroring line 175 of app.py.
Modelled as round-half-up to two decimals; the tie behaviour of the Python
builtin is never exercised by the claims. -/
def pyround2 (x : Rat) : Rat := ((x * 100 + 1 / 2).floor : Rat) / 100

/-- Modelled from the spec: the digest part of the salted password hash.
The functions generate_password_hash and check_password_hash come from the
werkzeug library and are not part of src/; the spec states that register
derives a salted hash from the password and never stores the plaintext. -/
def hashString (s : String) : Nat :=
  s.data.foldl (fun h c => h * 131 + c.toNat + 1) 7

/-- Modelled from the spec: a salted password hash record, holding a salt
and a digest, never the plaintext password. -/
structure PasswordHash where
  salt : Nat
  digest : Nat
deriving DecidableEq

/-- Modelled from the spec: werkzeug generate_password_hash, used by
User.set_password (app.py line 34).  The salt is an explicit argument
standing for the random salt werkzeug draws. -/
def generate_password_hash (salt : Nat) (password : String) : PasswordHash :=
  { salt := salt, digest := hashString password + salt }

/-- Modelled from the spec: werkzeug check_password_hash, used by
User.check_password (app.py line 38): recompute the digest from the stored
salt and the candidate password and compare. -/
def check_password_hash (h : PasswordHash) (password : String) : Bool :=
  decide (h.digest = hashString password + h.salt)

/-- User row (app.py lines 25-38): id, unique username, password hash. -/
structure User where
  id : Nat
  username : String
  password_hash : PasswordHash
deriving DecidableEq

/-- The transaction type column stores the string Gelir (income) or Gider
(expense); the SelectField at app.py line 59 restricts it to these two. -/
inductive TType where
  | gelir
  | gider
deriving DecidableEq

/-- Transaction row (app.py lines 40-48): title, signed amount, type,
creation date (modelled as a Nat timestamp), category, owning user id. -/
structure Transaction where
  id : Nat
  title : String
  amount : Rat
  type : TType
  date : Nat
  category : String
  user_id : Nat
deriving DecidableEq

/-- The database: the two tables plus autoincrement counters. -/
structure DB where
  users : List User
  transactions : List Transaction
  next_user_id : Nat
  next_tx_id : Nat
deriving DecidableEq

/-- The fixed category choices of the TransactionForm (app.py lines 60-64). -/
def categoryChoices : List String :=
  ["Maaş", "Yatırım", "Kira", "Gıda", "Fatura", "Ulaşım", "Eğlence", "Diğer"]

/-- TransactionForm validation (app.py lines 56-65): DataRequired on the
title, NumberRange(min=0.01) on the amount, and the category drawn from the
fixed choice list. -/
def validTransactionForm (title : String) (amount : Rat) (category : String) : Bool :=
  decide (title ≠ "") && decide ((1 : Rat) / 100 ≤ amount) && categoryChoices.contains category

/-- Outcome of the register route (app.py lines 78-93). -/
inductive RegisterOutcome where
  | redirectToLogin
  | formError (error : String)
  | formRender
deriving DecidableEq

/-- The register route handler (app.py lines 78-93): on a validated form,
reject an already-taken username with a form error and an unchanged state;
otherwise persist one new user whose stored password is the salted hash of
the submitted password, and redirect to the login page. -/
def register (s : DB) (salt : Nat) (username password : String) :
    RegisterOutcome × DB :=
  if username = "" ∨ password = "" then
    (.formRender, s)
  else if (s.users.find? (fun u => decide (u.username = username))).isSome then
    (.formError "Bu kullanıcı adı zaten alınmış.", s)
  else
    let new_user : User :=
      { id := s.next_user_id
        username := username
        password_hash := generate_password_hash salt password }
    (.redirectToLogin,
      { s with
          users := s.users ++ [new_user]
          next_user_id := s.next_user_id + 1 })

/-- Outcome of the login route (app.py lines 95-108). -/
inductive LoginOutcome where
  | success (userId : Nat)
  | failure (error : String)
deriving DecidableEq

/-- The login route handler (app.py lines 95-108): look up the user by
username, then check the password hash; the combined condition
`user and user.check_password(...)` sends both the unknown-username case
and the wrong-password case to the same single error branch. -/
def login (s : DB) (username password : String) : LoginOutcome :=
  match s.users.find? (fun u => decide (u.username = username)) with
  | some user =>
      if check_password_hash user.password_hash password then
        .success user.id
      else
        .failure "Geçersiz kullanıcı adı veya şifre."
  | none => .failure "Geçersiz kullanıcı adı veya şifre."

/-- The session established by a login attempt starting from an anonymous
session: login_user is called only on the success branch (app.py line 103). -/
def login_session (s : DB) (username password : String) : Option Nat :=
  match login s username password with
  | .success uid => some uid
  | .failure _ => none

/-- Newest-first comparison used by order_by(Transaction.date.desc()). -/
def dateGE (a b : Transaction) : Prop := b.date ≤ a.date

instance : DecidableRel dateGE := fun a b => Nat.decLe b.date a.date

instance : IsTotal Transaction dateGE :=
  ⟨fun a b => Nat.le_total b.date a.date⟩

instance : IsTrans Transaction dateGE :=
  ⟨fun _ _ _ h1 h2 => Nat.le_trans h2 h1⟩

/-- The ledger read at app.py line 159: rows filtered to the requesting
user, ordered by creation date descending (newest first). -/
def listByUser (s : DB) (uid : Nat) : List Transaction :=
  List.insertionSort dateGE (s.transactions.filter (fun t => decide (t.user_id = uid)))

/-- The reset route handler (app.py lines 117-129): bulk delete of the
rows whose user_id is the current user, then redirect. -/
def reset_data (s : DB) (uid : Nat) : DB :=
  { s with transactions := s.transactions.filter (fun t => !decide (t.user_id = uid)) }

/-- The row count returned by the bulk delete call at app.py line 124
(the handler ignores it; the spec reports it as the deleted count). -/
def reset_deleted_count (s : DB) (uid : Nat) : Nat :=
  (s.transactions.filter (fun t => decide (t.user_id = uid))).length

/-- The transaction insert of the index POST path (app.py lines 137-154),
after validation: the amount is negated through abs when the type is Gider. -/
def addTransaction (s : DB) (uid : Nat) (title : String) (amount0 : Rat)
    (t_type : TType) (category : String) (now : Nat) : DB :=
  let amount := if t_type = TType.gider then -(pyabs amount0) else amount0
  { s with
      transactions := s.transactions ++
        [{ id := s.next_tx_id
           title := title
           amount := amount
           type := t_type
           date := now
           category := category
           user_id := uid }]
      next_tx_id := s.next_tx_id + 1 }

/-- The index POST path including form validation (app.py line 137): an
invalid form falls through without touching the ledger. -/
def index_post (s : DB) (uid : Nat) (title : String) (amount : Rat)
    (t_type : TType) (category : String) (now : Nat) : DB :=
  if validTransactionForm title amount category then
    addTransaction s uid title amount t_type category now
  else
    s

/-- Aggregator (app.py line 162): signed sum of the income amounts. -/
def total_income (ts : List Transaction) : Rat :=
  ((ts.filter (fun t => decide (t.type = TType.gelir))).map (fun t => t.amount)).sum

/-- Aggregator (app.py line 163): signed sum of the expense amounts
(negative as stored). -/
def total_expense (ts : List Transaction) : Rat :=
  ((ts.filter (fun t => decide (t.type = TType.gider))).map (fun t => t.amount)).sum

/-- Aggregator (app.py line 164): signed sum of the two totals. -/
def net_balance (ts : List Transaction) : Rat :=
  total_income ts + total_expense ts

/-- Python dict update `d[k] = d.get(k, 0) + a` on an insertion-ordered
association list: an existing key keeps its position, a new key is
appended at the end. -/
def upsert (m : List (String × Rat)) (c : String) (a : Rat) : List (String × Rat) :=
  match m with
  | [] => [(c, a)]
  | (k, v) :: rest =>
      if k = c then (k, v + a) :: rest else (k, v) :: upsert rest c a

/-- Python dict.get with no default: first binding of the key, if any. -/
def dict_get (m : List (String × Rat)) (c : String) : Option Rat :=
  match m with
  | [] => none
  | (k, v) :: rest => if k = c then some v else dict_get rest c

/-- Aggregator (app.py lines 167-172): category-wise sum of the absolute
expense magnitudes, built by iterating the list and skipping non-expenses;
the dict keeps keys in insertion (first-seen) order. -/
def expense_by_category (ts : List Transaction) : List (String × Rat) :=
  ts.foldl
    (fun m t => if t.type = TType.gider then upsert m t.category (pyabs t.amount) else m)
    []

/-- Chart labels (app.py line 174): the dict keys in order. -/
def chart_labels (ts : List Transaction) : List String :=
  (expense_by_category ts).map Prod.fst

/-- Chart data (app.py line 175): the dict values rounded to 2 decimals. -/
def chart_data (ts : List Transaction) : List Rat :=
  (expense_by_category ts).map (fun p => pyround2 p.2)

/-- The values handed to the template by the index GET path
(app.py lines 177-186); total_expense is reported through abs (line 182). -/
structure RenderData where
  transactions : List Transaction
  total_income : Rat
  total_expense : Rat
  net_balance : Rat
  chart_labels : List String
  chart_data : List Rat
deriving DecidableEq

/-- The index GET path (app.py lines 159-186): read the ledger of the
current user newest first, aggregate, and render; the state is returned
unchanged (a pure read). -/
def index_get (s : DB) (uid : Nat) : RenderData × DB :=
  let all := listByUser s uid
  ({ transactions := all
     total_income := total_income all
     total_expense := pyabs (total_expense all)
     net_balance := net_balance all
     chart_labels := chart_labels all
     chart_data := chart_data all }, s)

/-- First-seen order of labels, written from the words of the spec
(category labels preserved in first-seen order): fold the list keeping
each label the first time it appears. -/
def specFirstSeenOrder (l : List String) : List String :=
  l.foldl (fun acc c => if c ∈ acc then acc else acc ++ [c]) []

/-! Concrete sample state used by the witnesses. -/

/-- Sample income transaction of user 1. -/
def txA : Transaction :=
  { id := 1, title := "Maaş", amount := 1000, type := .gelir, date := 10,
    category := "Maaş", user_id := 1 }

/-- Sample expense transaction of user 1 (stored negative). -/
def txB : Transaction :=
  { id := 2, title := "Market", amount := -300, type := .gider, date := 20,
    category := "Gıda", user_id := 1 }

/-- Sample expense transaction of user 2 (stored negative). -/
def txC : Transaction :=
  { id := 3, title := "Kira", amount := -5000, type := .gider, date := 15,
    category := "Kira", user_id := 2 }

/-- Sample registered user. -/
def userAlice : User :=
  { id := 1, username := "alice", password_hash := generate_password_hash 3 "pw1" }

/-- Second sample registered user. -/
def userBob : User :=
  { id := 2, username := "bob", password_hash := generate_password_hash 4 "pw2" }

/-- Sample database with two users and three transactions. -/
def sampleDB : DB :=
  { users := [userAlice, userBob], transactions := [txA, txB, txC],
    next_user_id := 3, next_tx_id := 4 }

/-! Helper lemmas. -/

/-- Membership in the scoped ledger listing. -/
theorem mem_listByUser (s : DB) (uid : Nat) (t : Transaction) :
    t ∈ listByUser s uid ↔ t ∈ s.transactions ∧ t.user_id = uid := by
  simp [listByUser, List.mem_filter]

/-- The bulk delete scoped to user A leaves the rows of any other user B
exactly as they were. -/
theorem filter_user_of_reset (s : DB) (A B : Nat) (hAB : A ≠ B) :
    (reset_data s A).transactions.filter (fun t => decide (t.user_id = B)) =
      s.transactions.filter (fun t => decide (t.user_id = B)) := by
  unfold reset_data
  simp only
  rw [List.filter_filter]
  apply List.filter_congr
  intro t _
  by_cases hB : t.user_id = B
  · simp [hB, Ne.symm hAB]
  · simp [hB]

/-! Claim theorems. -/

/-- C1: listing transactions scoped to user A returns no transaction owned
by a distinct user B, and the bulk delete scoped to A removes no row of B:
both the ledger read and the reset mutation restrict to rows whose user_id
equals the requesting user. -/
theorem c1_ledger_scoped_to_user (s : DB) (A B : Nat) (hAB : A ≠ B) :
    (∀ t ∈ listByUser s A, t.user_id ≠ B)
    ∧ (reset_data s A).transactions.filter (fun t => decide (t.user_id = B)) =
        s.transactions.filter (fun t => decide (t.user_id = B)) := by
  constructor
  · intro t ht
    have h := (mem_listByUser s A t).mp ht
    rw [h.2]
    exact hAB
  · exact filter_user_of_reset s A B hAB

/-- Witness for C1 at a concrete state: user 1 and user 2 of the sample
database. -/
theorem c1_witness :
    (∀ t ∈ listByUser sampleDB 1, t.user_id ≠ 2)
    ∧ (reset_data sampleDB 1).transactions.filter (fun t => decide (t.user_id = 2)) =
        sampleDB.transactions.filter (fun t => decide (t.user_id = 2)) :=
  c1_ledger_scoped_to_user sampleDB 1 2 (by decide)

/-- C7: after the reset of user U, the listing for U is empty; the rows of
every other user V are unchanged; and a reset when U has zero transactions
succeeds with a deleted count of 0 and leaves the table unchanged. -/
theorem c7_reset_deletes_only_owner (s : DB) (U : Nat) :
    listByUser (reset_data s U) U = []
    ∧ (∀ V, V ≠ U →
        (reset_data s U).transactions.filter (fun t => decide (t.user_id = V)) =
          s.transactions.filter (fun t => decide (t.user_id = V)))
    ∧ (listByUser s U = [] →
        reset_deleted_count s U = 0 ∧ (reset_data s U).transactions = s.transactions) := by
  refine ⟨?_, ?_, ?_⟩
  · unfold listByUser reset_data
    simp only
    rw [List.filter_filter]
    have hnil : (s.transactions.filter
        (fun t => decide (t.user_id = U) && !decide (t.user_id = U))) = [] := by
      simp
    rw [hnil]
    rfl
  · intro V hVU
    exact filter_user_of_reset s U V (Ne.symm hVU)
  · intro hEmpty
    have hperm := List.perm_insertionSort dateGE
      (s.transactions.filter (fun t => decide (t.user_id = U)))
    unfold listByUser at hEmpty
    rw [hEmpty] at hperm
    have hfil : s.transactions.filter (fun t => decide (t.user_id = U)) = [] :=
      hperm.symm.eq_nil
    constructor
    · unfold reset_deleted_count
      rw [hfil]
      rfl
    · unfold reset_data
      simp only
      rw [List.filter_eq_self]
      intro a ha
      have hnone := List.filter_eq_nil_iff.mp hfil a ha
      simp only [decide_eq_true_eq] at hnone
      simp [hnone]

/-- Witness for C7 at a concrete state: user 3 of the sample database owns
no transactions. -/
theorem c7_witness :
    listByUser (reset_data sampleDB 3) 3 = []
    ∧ (reset_data sampleDB 3).transactions.filter (fun t => decide (t.user_id = 1)) =
        sampleDB.transactions.filter (fun t => decide (t.user_id = 1))
    ∧ (reset_deleted_count sampleDB 3 = 0
        ∧ (reset_data sampleDB 3).transactions = sampleDB.transactions) :=
  ⟨(c7_reset_deletes_only_owner sampleDB 3).1,
   (c7_reset_deletes_only_owner sampleDB 3).2.1 1 (by decide),
   (c7_reset_deletes_only_owner sampleDB 3).2.2 (by decide)⟩

/-- C2: with a validated positive input magnitude m, the add path stores
the amount as -m when the type is Gider and as m when the type is Gelir;
the stored signs therefore match the types. -/
theorem c2_stored_amount_sign_matches_type (s : DB) (uid : Nat) (title : String)
    (m : Rat) (category : String) (now : Nat) (hm : 0 < m) :
    (addTransaction s uid title m TType.gider category now).transactions =
        s.transactions ++
          [{ id := s.next_tx_id, title := title, amount := -m, type := TType.gider,
             date := now, category := category, user_id := uid }]
    ∧ (addTransaction s uid title m TType.gelir category now).transactions =
        s.transactions ++
          [{ id := s.next_tx_id, title := title, amount := m, type := TType.gelir,
             date := now, category := category, user_id := uid }]
    ∧ (-m < 0 ∧ 0 < m) := by
  have hnot : ¬ m < 0 := lt_asymm hm
  refine ⟨?_, ?_, neg_lt_zero.mpr hm, hm⟩
  · simp [addTransaction, pyabs, hnot]
  · simp [addTransaction]

/-- Witness for C2 at a concrete input: magnitude 5 added to the sample
database for user 1. -/
theorem c2_witness :
    (addTransaction sampleDB 1 "Deneme" 5 TType.gider "Gıda" 30).transactions =
        sampleDB.transactions ++
          [{ id := sampleDB.next_tx_id, title := "Deneme", amount := -5,
             type := TType.gider, date := 30, category := "Gıda", user_id := 1 }]
    ∧ (addTransaction sampleDB 1 "Deneme" 5 TType.gelir "Gıda" 30).transactions =
        sampleDB.transactions ++
          [{ id := sampleDB.next_tx_id, title := "Deneme", amount := 5,
             type := TType.gelir, date := 30, category := "Gıda", user_id := 1 }]
    ∧ (-(5 : Rat) < 0 ∧ (0 : Rat) < 5) :=
  c2_stored_amount_sign_matches_type sampleDB 1 "Deneme" 5 "Gıda" 30 (by norm_num)

/-- Initial state of the spec scenario: one user, empty ledger. -/
def scenarioDB0 : DB :=
  { users := [userAlice], transactions := [], next_user_id := 2, next_tx_id := 1 }

/-- Scenario state after adding income 1000 through the index POST path. -/
def scenarioDB1 : DB := index_post scenarioDB0 1 "Maaş" 1000 .gelir "Maaş" 10

/-- Scenario state after further adding expense 300, category Gıda. -/
def scenarioDB2 : DB := index_post scenarioDB1 1 "Market" 300 .gider "Gıda" 20

/-- The income transaction row the scenario creates. -/
def txGelir : Transaction :=
  { id := 1, title := "Maaş", amount := 1000, type := .gelir, date := 10,
    category := "Maaş", user_id := 1 }

/-- The expense transaction row the scenario creates (stored negative). -/
def txGider : Transaction :=
  { id := 2, title := "Market", amount := -300, type := .gider, date := 20,
    category := "Gıda", user_id := 1 }

/-- The first scenario form passes validation. -/
theorem validMaas : validTransactionForm "Maaş" 1000 "Maaş" = true := by
  simp only [validTransactionForm, Bool.and_eq_true, decide_eq_true_eq]
  exact ⟨⟨by decide, by norm_num⟩, by decide⟩

/-- The second scenario form passes validation. -/
theorem validMarket : validTransactionForm "Market" 300 "Gıda" = true := by
  simp only [validTransactionForm, Bool.and_eq_true, decide_eq_true_eq]
  exact ⟨⟨by decide, by norm_num⟩, by decide⟩

/-- The scenario state evaluated: both posts pass validation and insert. -/
theorem scenarioDB2_eq :
    scenarioDB2 =
      addTransaction (addTransaction scenarioDB0 1 "Maaş" 1000 .gelir "Maaş" 10)
        1 "Market" 300 .gider "Gıda" 20 := by
  simp [scenarioDB2, scenarioDB1, index_post, validMaas, validMarket]

/-- The scenario ledger listing: the expense row (newer) first. -/
theorem scenario_listByUser : listByUser scenarioDB2 1 = [txGider, txGelir] := by
  rw [listByUser, scenarioDB2_eq]
  decide

/-- Net balance of the scenario listing. -/
theorem scenario_net : net_balance [txGider, txGelir] = 700 := by
  rw [net_balance, total_income, total_expense]
  have hfi : [txGider, txGelir].filter (fun t => decide (t.type = TType.gelir)) =
      [txGelir] := by decide
  have hfe : [txGider, txGelir].filter (fun t => decide (t.type = TType.gider)) =
      [txGider] := by decide
  rw [hfi, hfe]
  simp [txGelir, txGider]
  norm_num

/-- Reported total expense of the scenario listing. -/
theorem scenario_expense : pyabs (total_expense [txGider, txGelir]) = 300 := by
  rw [total_expense]
  have hfe : [txGider, txGelir].filter (fun t => decide (t.type = TType.gider)) =
      [txGider] := by decide
  rw [hfe]
  norm_num [txGider, pyabs]

/-- C3: the rendered totals are the signed income sum, the absolute value
of the signed expense sum, and their signed sum as the net balance; in the
concrete scenario (income 1000, then expense 300 in category Gıda) the
rendered net balance is 700 and the reported total expense is 300. -/
theorem c3_aggregate_totals (s : DB) (uid : Nat) :
    ((index_get s uid).1.total_income = total_income (listByUser s uid)
      ∧ (index_get s uid).1.total_expense = pyabs (total_expense (listByUser s uid))
      ∧ (index_get s uid).1.net_balance =
          total_income (listByUser s uid) + total_expense (listByUser s uid))
    ∧ ((index_get scenarioDB2 1).1.net_balance = 700
      ∧ (index_get scenarioDB2 1).1.total_expense = 300) := by
  refine ⟨⟨rfl, rfl, rfl⟩, ?_, ?_⟩
  · show net_balance (listByUser scenarioDB2 1) = 700
    rw [scenario_listByUser]
    exact scenario_net
  · show pyabs (total_expense (listByUser scenarioDB2 1)) = 300
    rw [scenario_listByUser]
    exact scenario_expense

/-- Python dict lookup after the update d[k] = d.get(k, 0) + a: the updated
key now holds its old value (defaulted to 0) plus a, every other key is
untouched. -/
theorem dict_get_upsert (m : List (String × Rat)) (c c' : String) (a : Rat) :
    dict_get (upsert m c a) c' =
      if c' = c then some ((dict_get m c).getD 0 + a) else dict_get m c' := by
  induction m with
  | nil =>
      by_cases h : c' = c
      · simp [upsert, dict_get, h]
      · simp [upsert, dict_get, h, Ne.symm h]
  | cons kv rest ih =>
      obtain ⟨k, v⟩ := kv
      by_cases hk : k = c
      · subst hk
        by_cases h : c' = k
        · subst h
          simp [upsert, dict_get]
        · simp [upsert, dict_get, h, Ne.symm h]
      · by_cases h : c' = k
        · subst h
          simp [upsert, dict_get, hk, Ne.symm hk]
        · simp [upsert, dict_get, hk, h, Ne.symm h, ih]

/-- The key order after the update d[k] = d.get(k, 0) + a: an existing key
keeps its position, a new key is appended at the end. -/
theorem keys_upsert (m : List (String × Rat)) (c : String) (a : Rat) :
    (upsert m c a).map Prod.fst =
      if c ∈ m.map Prod.fst then m.map Prod.fst else m.map Prod.fst ++ [c] := by
  induction m with
  | nil => simp [upsert]
  | cons kv rest ih =>
      obtain ⟨k, v⟩ := kv
      by_cases hk : k = c
      · subst hk
        simp [upsert]
      · by_cases hc : c ∈ rest.map Prod.fst
        · simp [upsert, hk, Ne.symm hk, ih, hc]
        · simp [upsert, hk, Ne.symm hk, ih, hc]

/-- The sum of the dict values grows by exactly a under the update
d[k] = d.get(k, 0) + a. -/
theorem values_sum_upsert (m : List (String × Rat)) (c : String) (a : Rat) :
    ((upsert m c a).map Prod.snd).sum = (m.map Prod.snd).sum + a := by
  induction m with
  | nil => simp [upsert]
  | cons kv rest ih =>
      obtain ⟨k, v⟩ := kv
      by_cases hk : k = c
      · subst hk
        simp [upsert]
        ring
      · simp [upsert, hk, ih]
        ring

/-- The category fold ignores income rows: folding over the list is folding
over its expense rows only. -/
theorem ebc_foldl_filter (ts : List Transaction) (m : List (String × Rat)) :
    ts.foldl
        (fun m t => if t.type = TType.gider then upsert m t.category (pyabs t.amount) else m)
        m =
      (ts.filter (fun t => decide (t.type = TType.gider))).foldl
        (fun m t => if t.type = TType.gider then upsert m t.category (pyabs t.amount) else m)
        m := by
  induction ts generalizing m with
  | nil => rfl
  | cons t ts ih =>
      by_cases ht : t.type = TType.gider
      · rw [List.filter_cons_of_pos (by simpa using ht)]
        simp only [List.foldl_cons]
        exact ih _
      · rw [List.filter_cons_of_neg (by simpa using ht)]
        simp only [List.foldl_cons]
        rw [if_neg ht]
        exact ih m

/-- The keys of the category fold are the expense categories in first-seen
order, continuing from the keys of the accumulator. -/
theorem ebc_foldl_keys (ts : List Transaction) (m : List (String × Rat)) :
    (ts.foldl
        (fun m t => if t.type = TType.gider then upsert m t.category (pyabs t.amount) else m)
        m).map Prod.fst =
      ((ts.filter (fun t => decide (t.type = TType.gider))).map (fun t => t.category)).foldl
        (fun acc c => if c ∈ acc then acc else acc ++ [c]) (m.map Prod.fst) := by
  induction ts generalizing m with
  | nil => rfl
  | cons t ts ih =>
      by_cases ht : t.type = TType.gider
      · rw [List.filter_cons_of_pos (by simpa using ht), List.map_cons]
        simp only [List.foldl_cons]
        rw [if_pos ht, ih, keys_upsert]
      · rw [List.filter_cons_of_neg (by simpa using ht)]
        simp only [List.foldl_cons]
        rw [if_neg ht, ih]

/-- The value of a key of the category fold: the accumulated value plus the
summed absolute magnitudes of the expense rows with that category. -/
theorem ebc_foldl_get (ts : List Transaction) (m : List (String × Rat)) (c : String) :
    (dict_get
        (ts.foldl
          (fun m t => if t.type = TType.gider then upsert m t.category (pyabs t.amount) else m)
          m) c).getD 0 =
      (dict_get m c).getD 0 +
        ((ts.filter
            (fun t => decide (t.type = TType.gider) && decide (t.category = c))).map
          (fun t => pyabs t.amount)).sum := by
  induction ts generalizing m with
  | nil => simp
  | cons t ts ih =>
      by_cases ht : t.type = TType.gider
      · by_cases hc : t.category = c
        · subst hc
          rw [List.filter_cons_of_pos (by simp [ht]), List.map_cons, List.sum_cons]
          simp only [List.foldl_cons]
          rw [if_pos ht, ih, dict_get_upsert, if_pos rfl]
          simp only [Option.getD_some]
          ring
        · rw [List.filter_cons_of_neg (by simp [hc])]
          simp only [List.foldl_cons]
          rw [if_pos ht, ih, dict_get_upsert, if_neg (Ne.symm hc)]
      · rw [List.filter_cons_of_neg (by simp [ht])]
        simp only [List.foldl_cons]
        rw [if_neg ht, ih]

/-- The sum of the dict values of the category fold: the accumulated sum
plus the summed absolute magnitudes of all expense rows. -/
theorem ebc_foldl_values (ts : List Transaction) (m : List (String × Rat)) :
    ((ts.foldl
        (fun m t => if t.type = TType.gider then upsert m t.category (pyabs t.amount) else m)
        m).map Prod.snd).sum =
      (m.map Prod.snd).sum +
        ((ts.filter (fun t => decide (t.type = TType.gider))).map
          (fun t => pyabs t.amount)).sum := by
  induction ts generalizing m with
  | nil => simp
  | cons t ts ih =>
      by_cases ht : t.type = TType.gider
      · rw [List.filter_cons_of_pos (by simpa using ht), List.map_cons, List.sum_cons]
        simp only [List.foldl_cons]
        rw [if_pos ht, ih, values_sum_upsert]
        ring
      · rw [List.filter_cons_of_neg (by simpa using ht)]
        simp only [List.foldl_cons]
        rw [if_neg ht, ih]

/-- Python abs of a nonpositive rational is its negation. -/
theorem pyabs_of_nonpos (x : Rat) (hx : x ≤ 0) : pyabs x = -x := by
  rw [pyabs]
  by_cases h0 : x < 0
  · rw [if_pos h0]
  · have hx0 : x = 0 := le_antisymm hx (not_lt.mp h0)
    rw [if_neg h0, hx0, neg_zero]

/-- A sum of nonpositive rationals is nonpositive. -/
theorem sum_nonpos_of_forall (l : List Rat) (h : ∀ x ∈ l, x ≤ 0) : l.sum ≤ 0 := by
  induction l with
  | nil => simp
  | cons x l ih =>
      have hx := h x (by simp)
      have hl := ih (fun y hy => h y (by simp [hy]))
      simpa using add_nonpos hx hl

/-- Python abs distributes over a sum of nonpositive rationals. -/
theorem pyabs_sum_nonpos (l : List Rat) (h : ∀ x ∈ l, x ≤ 0) :
    pyabs l.sum = (l.map pyabs).sum := by
  induction l with
  | nil => simp [pyabs]
  | cons x l ih =>
      have hx : x ≤ 0 := h x (by simp)
      have hl : ∀ y ∈ l, y ≤ 0 := fun y hy => h y (by simp [hy])
      rw [List.sum_cons, List.map_cons, List.sum_cons,
        pyabs_of_nonpos _ (add_nonpos hx (sum_nonpos_of_forall l hl)),
        pyabs_of_nonpos x hx, ← ih hl, pyabs_of_nonpos _ (sum_nonpos_of_forall l hl)]
      ring

/-- C4: the category breakdown is built from expense rows only (income
contributes nothing); each category holds the summed absolute magnitudes
of the expense rows of that category; the labels come in first-seen order
of the iterated list; rounding to 2 decimals is applied to the presented
chart values while the accumulated mapping keeps full precision; and the
empty list yields zero totals and an empty mapping. -/
theorem c4_category_breakdown (ts : List Transaction) (c : String) :
    expense_by_category ts =
        expense_by_category (ts.filter (fun t => decide (t.type = TType.gider)))
    ∧ (dict_get (expense_by_category ts) c).getD 0 =
        ((ts.filter
            (fun t => decide (t.type = TType.gider) && decide (t.category = c))).map
          (fun t => pyabs t.amount)).sum
    ∧ chart_labels ts =
        specFirstSeenOrder
          ((ts.filter (fun t => decide (t.type = TType.gider))).map (fun t => t.category))
    ∧ chart_data ts = (expense_by_category ts).map (fun p => pyround2 p.2)
    ∧ (total_income ([] : List Transaction) = 0 ∧ total_expense [] = 0
        ∧ net_balance [] = 0 ∧ expense_by_category [] = []
        ∧ chart_labels [] = [] ∧ chart_data [] = []) := by
  refine ⟨?_, ?_, ?_, rfl, ?_⟩
  · exact ebc_foldl_filter ts []
  · simpa [expense_by_category, dict_get] using ebc_foldl_get ts [] c
  · simpa [chart_labels, expense_by_category, specFirstSeenOrder] using ebc_foldl_keys ts []
  · refine ⟨rfl, rfl, ?_, rfl, rfl, rfl⟩
    simp [net_balance, total_income, total_expense]

/-- C10: under the stored sign invariant (expense amounts nonpositive), the
values of the category breakdown sum to the reported total expense, the
absolute value of the signed expense sum. -/
theorem c10_breakdown_sums_to_total (ts : List Transaction)
    (hsign : ∀ t ∈ ts, t.type = TType.gider → t.amount ≤ 0) :
    ((expense_by_category ts).map Prod.snd).sum = pyabs (total_expense ts) := by
  have h1 : ((expense_by_category ts).map Prod.snd).sum =
      ((ts.filter (fun t => decide (t.type = TType.gider))).map
        (fun t => pyabs t.amount)).sum := by
    simpa [expense_by_category] using ebc_foldl_values ts []
  have hmem : ∀ x ∈ (ts.filter (fun t => decide (t.type = TType.gider))).map
      (fun t => t.amount), x ≤ 0 := by
    intro x hx
    simp only [List.mem_map, List.mem_filter, decide_eq_true_eq] at hx
    obtain ⟨t, ⟨htmem, htg⟩, rfl⟩ := hx
    exact hsign t htmem htg
  rw [h1, total_expense, pyabs_sum_nonpos _ hmem, List.map_map]
  rfl

/-- Witness for C10 at a concrete list: the single sample expense row. -/
theorem c10_witness :
    ((expense_by_category [txGider]).map Prod.snd).sum = pyabs (total_expense [txGider]) :=
  c10_breakdown_sums_to_total [txGider] (by decide)

/-- Register on a fresh username with nonempty credentials: redirect to the
login page and append exactly one new user carrying the salted hash. -/
theorem register_fresh_eq (s : DB) (salt : Nat) (u p : String)
    (hu : u ≠ "") (hp : p ≠ "") (hno : ∀ x ∈ s.users, x.username ≠ u) :
    register s salt u p =
      (.redirectToLogin,
        { s with
            users := s.users ++
              [{ id := s.next_user_id, username := u,
                 password_hash := generate_password_hash salt p }]
            next_user_id := s.next_user_id + 1 }) := by
  have hfind : s.users.find? (fun y => decide (y.username = u)) = none :=
    List.find?_eq_none.mpr fun x hx => by simp [hno x hx]
  simp only [register]
  rw [if_neg (not_or.mpr ⟨hu, hp⟩), if_neg (by simp [hfind])]

/-- Register on a taken username with nonempty credentials: a form error
and the state returned unchanged. -/
theorem register_duplicate_eq (s : DB) (salt : Nat) (u p : String)
    (hu : u ≠ "") (hp : p ≠ "") (hdup : ∃ x ∈ s.users, x.username = u) :
    register s salt u p = (.formError "Bu kullanıcı adı zaten alınmış.", s) := by
  obtain ⟨x, hx, hxu⟩ := hdup
  have hsome : (s.users.find? (fun y => decide (y.username = u))).isSome = true := by
    cases hfind : s.users.find? (fun y => decide (y.username = u)) with
    | some _ => rfl
    | none =>
        exfalso
        have := List.find?_eq_none.mp hfind x hx
        simp [hxu] at this
  simp only [register]
  rw [if_neg (not_or.mpr ⟨hu, hp⟩), if_pos hsome]

/-- C5: both failure causes of login, an unknown username and a wrong
password for an existing username, produce the same single generic error
and establish no session. -/
theorem c5_login_failures_indistinguishable (s : DB) (u p : String) :
    ((∀ x ∈ s.users, x.username ≠ u) →
        login s u p = .failure "Geçersiz kullanıcı adı veya şifre."
        ∧ login_session s u p = none)
    ∧ (∀ user, s.users.find? (fun x => decide (x.username = u)) = some user →
        check_password_hash user.password_hash p = false →
        login s u p = .failure "Geçersiz kullanıcı adı veya şifre."
        ∧ login_session s u p = none) := by
  constructor
  · intro hno
    have hfind : s.users.find? (fun x => decide (x.username = u)) = none :=
      List.find?_eq_none.mpr fun x hx => by simp [hno x hx]
    exact ⟨by simp [login, hfind], by simp [login_session, login, hfind]⟩
  · intro user hfind hcheck
    exact ⟨by simp [login, hfind, hcheck],
      by simp [login_session, login, hfind, hcheck]⟩

/-- Witness for C5 at concrete inputs: an unknown username, and the sample
user alice with a wrong password. -/
theorem c5_witness :
    (login sampleDB "carol" "x" = .failure "Geçersiz kullanıcı adı veya şifre."
      ∧ login_session sampleDB "carol" "x" = none)
    ∧ (login sampleDB "alice" "wrong" = .failure "Geçersiz kullanıcı adı veya şifre."
      ∧ login_session sampleDB "alice" "wrong" = none) :=
  ⟨(c5_login_failures_indistinguishable sampleDB "carol" "x").1 (by decide),
   (c5_login_failures_indistinguishable sampleDB "alice" "wrong").2 userAlice
     (by decide) (by decide)⟩

/-- C6: registering a taken username fails with the duplicate-username
error and leaves the state (hence the user table) unchanged; registering a
fresh username persists exactly one new user whose stored password is the
salted hash derived from the submitted password, never the plaintext. -/
theorem c6_register_duplicate_rejected (s : DB) (salt : Nat) (u p : String)
    (hu : u ≠ "") (hp : p ≠ "") :
    ((∃ x ∈ s.users, x.username = u) →
        register s salt u p = (.formError "Bu kullanıcı adı zaten alınmış.", s))
    ∧ ((∀ x ∈ s.users, x.username ≠ u) →
        (register s salt u p).1 = .redirectToLogin
        ∧ (register s salt u p).2.users =
            s.users ++
              [{ id := s.next_user_id, username := u,
                 password_hash := generate_password_hash salt p }]) := by
  constructor
  · intro hdup
    exact register_duplicate_eq s salt u p hu hp hdup
  · intro hno
    rw [register_fresh_eq s salt u p hu hp hno]
    exact ⟨rfl, rfl⟩

/-- Witness for C6 at concrete inputs: the taken username alice and the
fresh username carol on the sample database. -/
theorem c6_witness :
    register sampleDB 9 "alice" "zzz" = (.formError "Bu kullanıcı adı zaten alınmış.", sampleDB)
    ∧ ((register sampleDB 9 "carol" "secret").1 = .redirectToLogin
      ∧ (register sampleDB 9 "carol" "secret").2.users =
          sampleDB.users ++
            [{ id := sampleDB.next_user_id, username := "carol",
               password_hash := generate_password_hash 9 "secret" }]) :=
  ⟨(c6_register_duplicate_rejected sampleDB 9 "alice" "zzz" (by decide) (by decide)).1
      ⟨userAlice, by decide, by decide⟩,
   (c6_register_duplicate_rejected sampleDB 9 "carol" "secret" (by decide) (by decide)).2
      (by decide)⟩

/-- C8: registering a fresh username succeeds and a subsequent login with
the same username and password succeeds, with the identity of the newly
persisted user: the stored salted hash verifies against the original
password. -/
theorem c8_register_then_login_succeeds (s : DB) (salt : Nat) (u p : String)
    (hu : u ≠ "") (hp : p ≠ "") (hno : ∀ x ∈ s.users, x.username ≠ u) :
    (register s salt u p).1 = .redirectToLogin
    ∧ login (register s salt u p).2 u p = .success s.next_user_id := by
  have hfind : s.users.find? (fun y => decide (y.username = u)) = none :=
    List.find?_eq_none.mpr fun x hx => by simp [hno x hx]
  rw [register_fresh_eq s salt u p hu hp hno]
  refine ⟨rfl, ?_⟩
  simp [login, List.find?_append, hfind, check_password_hash, generate_password_hash]

/-- Witness for C8 at concrete inputs: carol registers on the sample
database and then logs in with the same credentials. -/
theorem c8_witness :
    (register sampleDB 9 "carol" "secret").1 = .redirectToLogin
    ∧ login (register sampleDB 9 "carol" "secret").2 "carol" "secret" =
        .success sampleDB.next_user_id :=
  c8_register_then_login_succeeds sampleDB 9 "carol" "secret"
    (by decide) (by decide) (by decide)

/-- C9: the ledger listing is a pure read (the state comes back unchanged),
it is sorted newest first (descending creation date), and it is a
permutation of exactly the rows of the requesting user. -/
theorem c9_listing_newest_first_read_only (s : DB) (uid : Nat) :
    (index_get s uid).2 = s
    ∧ List.Sorted dateGE (listByUser s uid)
    ∧ List.Perm (listByUser s uid)
        (s.transactions.filter (fun t => decide (t.user_id = uid))) :=
  ⟨rfl, List.sorted_insertionSort dateGE _, List.perm_insertionSort dateGE _⟩

end BudgetApp
